import Mathlib

/-!
Shallow embedding of the cisco-automation scripts
(`src/scripts/network_ops.py`, `src/scripts/iosxr_network_ops.py`).

The device session (netmiko) is modelled as an oracle `Env : Action → Bool`
deciding, for each issued action (a `send_config_set` batch, a `send_command`,
or `enable`), whether it succeeds or raises.  Each Python function becomes a
Lean function that returns the trace of actions it issues (in order) and,
where the Python function can propagate an exception, a Bool that is `true`
when it returns normally.  Command strings are built exactly as the f-strings
in the source build them.
-/

namespace Cisco

/-- An action issued on the device session.
`configSet cmds` models `connection.send_config_set(cmds)`;
`command c e` models `connection.send_command(c, ...)`, with `e = true` when
an explicit `expect_string` argument is passed (the "strict" form) and
`e = false` for the plain call (the "lax" form);
`enable` models `connection.enable()`. -/
inductive Action where
  | configSet (cmds : List String)
  | command (cmd : String) (expect : Bool)
  | enable
deriving DecidableEq, Repr

/-- Device behaviour: for each issued action, whether it succeeds (`true`)
or raises an exception (`false`). -/
def Env : Type := Action → Bool

/-- The `commit` command as sent by the IOS XR script:
`connection.send_command("commit", expect_string=r"#")`. -/
def commitAction : Action := Action.command "commit" true

/-! ### network_ops.py : data model -/

/-- A VLAN entry of `vlan_config.json` as read by `create_vlans`. -/
structure Vlan where
  id : Nat
  name : String
deriving DecidableEq, Repr

/-- An interface entry as read by `update_interface_descriptions`. -/
structure Iface where
  ifname : String
  description : String
deriving DecidableEq, Repr

/-! ### network_ops.py : operations -/

/-- The command list accumulated by `create_vlans` (network_ops.py 50-53):
for every VLAN the pair `vlan <id>` / `name <name>` is appended to one list. -/
def create_vlans_commands (vlans : List Vlan) : List String :=
  vlans.foldl (fun cmds v => cmds ++ ["vlan " ++ toString v.id, "name " ++ v.name]) []

/-- `create_vlans` (network_ops.py 48-60): all VLAN commands are sent in a
single `send_config_set` call, with no exception handling, so a failure
propagates to the caller (`ok = false`). -/
def create_vlans (env : Env) (vlans : List Vlan) : List Action × Bool :=
  let cmds := create_vlans_commands vlans
  if cmds.isEmpty then ([], true)
  else
    let a := Action.configSet cmds
    ([a], env a)

/-- The per-interface batch of `update_interface_descriptions`
(network_ops.py 65-68). -/
def ifaceCommands (i : Iface) : List String :=
  ["interface " ++ i.ifname, "description " ++ i.description]

/-- `update_interface_descriptions` (network_ops.py 62-71): one
`send_config_set` per interface, no exception handling, so the first failing
batch aborts the loop and propagates. -/
def update_interface_descriptions (env : Env) : List Iface → List Action × Bool
  | [] => ([], true)
  | i :: rest =>
    let a := Action.configSet (ifaceCommands i)
    if env a then
      let r := update_interface_descriptions env rest
      (a :: r.1, r.2)
    else ([a], false)

/-- Top-level config of network_ops.py: optional `vlans` and `interfaces`
keys of `vlan_config.json` (main checks `'vlans' in config` etc.). -/
structure NetCfg where
  vlans : Option (List Vlan)
  interfaces : Option (List Iface)
deriving Repr

/-- The body of network_ops.py `main` from `connection.enable()` on
(lines 140-166), inside the catch-all `try`: enable, two `show` commands,
`create_vlans`, `update_interface_descriptions`, `save_config`
(`send_command("write memory")`, no try/except inside `save_config`), two
more `show` commands.  Any exception propagates to main's `except`, which
calls `sys.exit(1)`: the run's outcome is `false`. -/
def network_ops_run (env : Env) (cfg : NetCfg) : List Action × Bool :=
  if !env Action.enable then ([Action.enable], false)
  else
    let s1 := Action.command "show vlan brief" false
    if !env s1 then ([Action.enable, s1], false)
    else
      let s2 := Action.command "show interfaces description" false
      if !env s2 then ([Action.enable, s1, s2], false)
      else
        let rv := match cfg.vlans with
          | some vs => create_vlans env vs
          | none => ([], true)
        if !rv.2 then ([Action.enable, s1, s2] ++ rv.1, false)
        else
          let ri := match cfg.interfaces with
            | some is => update_interface_descriptions env is
            | none => ([], true)
          if !ri.2 then ([Action.enable, s1, s2] ++ rv.1 ++ ri.1, false)
          else
            let sw := Action.command "write memory" false
            if !env sw then ([Action.enable, s1, s2] ++ rv.1 ++ ri.1 ++ [sw], false)
            else if !env s1 then
              ([Action.enable, s1, s2] ++ rv.1 ++ ri.1 ++ [sw, s1], false)
            else if !env s2 then
              ([Action.enable, s1, s2] ++ rv.1 ++ ri.1 ++ [sw, s1, s2], false)
            else ([Action.enable, s1, s2] ++ rv.1 ++ ri.1 ++ [sw, s1, s2], true)

/-! ### iosxr_network_ops.py : data model -/

/-- A subinterface entry of `vlan_config.json['subinterfaces']` as read by
`configure_subinterfaces`. -/
structure Subif where
  parent_interface : String
  subinterface : String
  description : String
  vlan_id : Nat
  ip_address : String
  subnet_mask : String
deriving DecidableEq, Repr

/-- A static route entry as read by `configure_static_routes`; `network`,
`mask` and `next_hop` keys may be absent from the JSON object
(`route['network']` raises `KeyError`, `route.get('next_hop', 'Null0')`
falls back to a default). -/
structure StaticRoute where
  network : Option String
  mask : Option String
  next_hop : Option String
deriving DecidableEq, Repr

/-- A `(network, wildcard, area)` advertisement of a routing protocol entry. -/
structure OspfNetwork where
  network : String
  wildcard : String
  area : String
deriving DecidableEq, Repr

/-- A `routing_protocols` entry as read by `configure_routing_protocols`. -/
structure RoutingConfig where
  protocol : String
  process_id : Nat
  networks : List OspfNetwork
deriving DecidableEq, Repr

/-- Top-level config of iosxr_network_ops.py `main`: `subinterfaces` is
accessed unconditionally, `routing_protocols` only when the key is present
(`if 'routing_protocols' in vlan_config`). -/
structure XrCfg where
  subinterfaces : List Subif
  routing_protocols : Option (List RoutingConfig)
deriving Repr

/-! ### iosxr_network_ops.py : cleanup -/

/-- The hardcoded `subinterfaces_to_remove` list
(iosxr_network_ops.py 45-54). -/
def subinterfaces_to_remove : List String :=
  ["GigabitEthernet0/0/0/0.100",
   "GigabitEthernet0/0/0/0.400",
   "GigabitEthernet0/0/0/1.200",
   "GigabitEthernet0/0/0/2.300",
   "GigabitEthernet0/0/0/0.10",
   "GigabitEthernet0/0/0/1.20",
   "GigabitEthernet0/0/0/2.30",
   "GigabitEthernet0/0/0/3.40"]

/-- Trace of one removal attempt: the batch is always sent; `commit` is sent
only when the batch did not raise (both sit inside one `try`), and a failure
of either is swallowed by the `except`. -/
def removalAttempt (env : Env) (cmds : List String) : List Action :=
  let a := Action.configSet cmds
  if env a then [a, commitAction] else [a]

/-- `cleanup_existing_configs` (iosxr_network_ops.py 40-72): first
`no router ospf 1` (in a `try`), then one `no interface <name>` batch per
hardcoded name, each in its own `try`; never raises. -/
def cleanup_existing_configs (env : Env) : List Action :=
  removalAttempt env ["no router ospf 1"] ++
    (subinterfaces_to_remove.map
      (fun n => removalAttempt env ["no interface " ++ n])).flatten

/-! ### iosxr_network_ops.py : subinterfaces -/

/-- The per-subinterface command batch (iosxr_network_ops.py 86-94),
in source order. -/
def subifCommands (s : Subif) : List String :=
  ["interface " ++ s.parent_interface,
   "no shutdown",
   "interface " ++ s.subinterface,
   "description " ++ s.description,
   "encapsulation dot1q " ++ toString s.vlan_id,
   "ipv4 address " ++ s.ip_address ++ " " ++ s.subnet_mask,
   "no shutdown"]

/-- Whether one subinterface's `try` block runs to completion: the
`send_config_set` and the subsequent `commit` both succeed.  Only then is
the name added to `configured_interfaces` (line 105). -/
def subifSuccess (env : Env) (s : Subif) : Bool :=
  env (Action.configSet (subifCommands s)) && env commitAction

/-- Trace issued for one subinterface that is not a recorded duplicate:
the batch is sent; `commit` follows only if the batch did not raise;
exceptions are caught by the per-entity `except` (line 107). -/
def subifTrace (env : Env) (s : Subif) : List Action :=
  let a := Action.configSet (subifCommands s)
  if env a then [a, commitAction] else [a]

/-- The `configured_interfaces` set after processing one entry: skipped
duplicates and failed entries leave it unchanged, a fully successful entry
adds its name. -/
def subifStep (env : Env) (configured : List String) (s : Subif) : List String :=
  if s.subinterface ∈ configured then configured
  else if subifSuccess env s then configured ++ [s.subinterface]
  else configured

/-- The loop of `configure_subinterfaces` (iosxr_network_ops.py 81-108),
threading the `configured_interfaces` set: a duplicate of a recorded name
emits nothing (`continue`, line 84), otherwise the entry's trace is emitted
and the set is updated. -/
def configure_subinterfaces_aux (env : Env) (configured : List String) :
    List Subif → List Action
  | [] => []
  | s :: rest =>
    if s.subinterface ∈ configured then
      configure_subinterfaces_aux env configured rest
    else
      subifTrace env s ++
        configure_subinterfaces_aux env (subifStep env configured s) rest

/-- `configure_subinterfaces` (iosxr_network_ops.py 74-108): the loop starts
with an empty `configured_interfaces` set; never raises. -/
def configure_subinterfaces (env : Env) (subifs : List Subif) : List Action :=
  configure_subinterfaces_aux env [] subifs

/-- The `configured_interfaces` set after a whole list has been processed. -/
def configuredAfter (env : Env) (subifs : List Subif) : List String :=
  subifs.foldl (subifStep env) []

/-! ### iosxr_network_ops.py : static routes -/

/-- One route line, `f"{route['network']} {route['mask']}
{route.get('next_hop', 'Null0')}"` (line 121), defined for well-formed
routes (both required keys present). -/
def routeLine (r : StaticRoute) : String :=
  r.network.getD "" ++ " " ++ r.mask.getD "" ++ " " ++ r.next_hop.getD "Null0"

/-- Building the command list of `configure_static_routes`
(iosxr_network_ops.py 118-122): starting from the two context-entering
lines, one route line is appended per route; a route whose `network` or
`mask` key is absent raises `KeyError` (`Except.error`). -/
def buildRouteCommandsAux (acc : List String) :
    List StaticRoute → Except Unit (List String)
  | [] => Except.ok acc
  | r :: rest =>
    match r.network, r.mask with
    | some _, some _ => buildRouteCommandsAux (acc ++ [routeLine r]) rest
    | _, _ => Except.error ()

/-- The full command list of `configure_static_routes`, headed by
`router static` and `address-family ipv4 unicast`. -/
def buildRouteCommands (routes : List StaticRoute) : Except Unit (List String) :=
  buildRouteCommandsAux ["router static", "address-family ipv4 unicast"] routes

/-- `configure_static_routes` (iosxr_network_ops.py 110-130): returns at once
on an empty list; otherwise builds one command list and issues it as a single
`send_config_set` followed by `commit`; every exception (a `KeyError` while
building, a failed send, a failed commit) is caught by the one `except` and
the function returns normally. -/
def configure_static_routes (env : Env) (routes : List StaticRoute) :
    List Action :=
  if routes.isEmpty then []
  else
    match buildRouteCommands routes with
    | Except.error _ => []
    | Except.ok cmds =>
      let a := Action.configSet cmds
      if env a then [a, commitAction] else [a]

/-! ### iosxr_network_ops.py : routing protocols -/

/-- Python's `str.lower()` as used in `routing_config['protocol'].lower()`
(line 138): character-wise lowercasing. -/
def pyLower (s : String) : String := ⟨s.data.map Char.toLower⟩

/-- One OSPF network statement,
`f"network {n['network']} {n['wildcard']} area {n['area']}"` (line 148). -/
def ospfNetLine (n : OspfNetwork) : String :=
  "network " ++ n.network ++ " " ++ n.wildcard ++ " area " ++ n.area

/-- The OSPF command list (iosxr_network_ops.py 143-148): the
`router ospf <pid>` header, then one network statement appended per entry of
`networks`, in list order. -/
def ospfCommands (rc : RoutingConfig) : List String :=
  rc.networks.foldl (fun cmds n => cmds ++ [ospfNetLine n])
    ["router ospf " ++ toString rc.process_id]

/-- Trace issued for one `routing_protocols` entry
(iosxr_network_ops.py 137-156): commands are sent only when
`protocol.lower() == 'ospf'`; any other protocol value falls through the
`if` with nothing sent and nothing reported; exceptions are caught by the
per-entry `except`. -/
def routingTrace (env : Env) (rc : RoutingConfig) : List Action :=
  if pyLower rc.protocol == "ospf" then
    let a := Action.configSet (ospfCommands rc)
    if env a then [a, commitAction] else [a]
  else []

/-- `configure_routing_protocols` (iosxr_network_ops.py 132-156): the
per-entry traces in input order; never raises. -/
def configure_routing_protocols (env : Env) (rcs : List RoutingConfig) :
    List Action :=
  rcs.foldl (fun acc rc => acc ++ routingTrace env rc) []

/-! ### iosxr_network_ops.py : verification and save -/

/-- The recurring `show` pattern of `verify_iosxr_configuration`: try the
strict form (`expect_string=r"#"`), on failure fall back to the lax form;
the lax form's own failure propagates (to the routine's outer `except`).
Returns the trace and whether the block completed without propagating. -/
def showWithFallback (env : Env) (c : String) : List Action × Bool :=
  let s := Action.command c true
  if env s then ([s], true)
  else
    let l := Action.command c false
    ([s, l], env l)

/-- `verify_iosxr_configuration` (iosxr_network_ops.py 158-225): four
strict/lax `show` blocks (`show interfaces brief`,
`show running-config interface`, `show ipv4 interface brief`,
`show route ipv4`) and, between the last two, the OSPF status block, whose
`except` only prints a message and sends no fallback command.  A failure
that propagates out of a block is caught by the routine's outer `except`,
which ends the routine normally, so the routine itself never raises. -/
def verify_iosxr_configuration (env : Env) : List Action :=
  let b1 := showWithFallback env "show interfaces brief"
  if !b1.2 then b1.1
  else
    let b2 := showWithFallback env "show running-config interface"
    if !b2.2 then b1.1 ++ b2.1
    else
      let b3 := showWithFallback env "show ipv4 interface brief"
      if !b3.2 then b1.1 ++ b2.1 ++ b3.1
      else
        let b4 := [Action.command "show ospf interface brief" true]
        let b5 := showWithFallback env "show route ipv4"
        b1.1 ++ b2.1 ++ b3.1 ++ b4 ++ b5.1

/-- `save_iosxr_config` (iosxr_network_ops.py 227-246): `commit` first; only
if it succeeded, `admin save running-config startup-config` (in a nested
`try`); every failure is caught (outer or inner `except`) and only printed,
so the function never raises. -/
def save_iosxr_config (env : Env) : List Action :=
  let c := commitAction
  if env c then [c, Action.command "admin save running-config startup-config" true]
  else [c]

/-- The initial state dump of iosxr main (lines 283-288): one strict `show`
in a `try` whose `except` only prints; no fallback, never raises. -/
def initial_show : List Action := [Action.command "show interfaces brief" true]

/-- The body of iosxr_network_ops.py `main` from `connection.enable()` on
(lines 276-301), inside the catch-all `try`: enable, cleanup, initial show,
subinterfaces, routing protocols (when the key is present), verification,
save.  Every phase after `enable` catches its own exceptions, so the run
fails (main's `except` + `sys.exit(1)`) only when `enable` itself raises. -/
def iosxr_run (env : Env) (cfg : XrCfg) : List Action × Bool :=
  if !env Action.enable then ([Action.enable], false)
  else
    (Action.enable ::
      (cleanup_existing_configs env ++ initial_show ++
        configure_subinterfaces env cfg.subinterfaces ++
        (match cfg.routing_protocols with
         | some rcs => configure_routing_protocols env rcs
         | none => []) ++
        verify_iosxr_configuration env ++ save_iosxr_config env), true)

/-! ### Credential loading (both scripts' `main`) -/

/-- The process environment as seen by `os.getenv`. -/
def EnvVars : Type := String → Option String

/-- The connection parameters assembled by iosxr_network_ops.py `main`
(lines 250-257). -/
structure DeviceInfo where
  host : String
  username : String
  password : String
  secret : String
  port : Nat
deriving DecidableEq, Repr

/-- `int(os.getenv('SWITCH_PORT', 22))` (line 256): an absent variable
yields the integer default 22 without parsing; a present value is parsed,
and an unparsable one raises before anything else happens. -/
def iosxr_port (e : EnvVars) : Option Nat :=
  match e "SWITCH_PORT" with
  | none => some 22
  | some s => s.toNat?

/-- The `device_info` dict built by iosxr main (lines 250-257): every
credential falls back to a hardcoded default when its variable is absent;
`none` only when a present `SWITCH_PORT` value fails to parse (the one case
in which the program dies before a connection attempt). -/
def iosxr_device_info (e : EnvVars) : Option DeviceInfo :=
  match iosxr_port e with
  | none => none
  | some p =>
    some { host := (e "SWITCH_IP").getD "sandbox-iosxr-1.cisco.com",
           username := (e "SWITCH_USERNAME").getD "admin",
           password := (e "SWITCH_PASSWORD").getD "C1sco12345",
           secret := (e "SWITCH_ENABLE_PASSWORD").getD "C1sco12345",
           port := p }

/-! ### Helper lemmas -/

/-- A left fold that appends a block per element produces the concatenation
of the blocks, in input order. -/
theorem foldl_append_blocks {α β : Type} (g : α → List β) :
    ∀ (l : List α) (acc : List β),
      l.foldl (fun a x => a ++ g x) acc = acc ++ (l.map g).flatten := by
  intro l
  induction l with
  | nil => intro acc; simp
  | cons x xs ih =>
    intro acc
    simp only [List.foldl_cons, List.map_cons, List.flatten_cons, ih,
      List.append_assoc]

/-- A left fold that appends one element per input produces the mapped list,
in input order. -/
theorem foldl_append_singletons {α β : Type} (g : α → β) :
    ∀ (l : List α) (acc : List β),
      l.foldl (fun a x => a ++ [g x]) acc = acc ++ l.map g := by
  intro l
  induction l with
  | nil => intro acc; simp
  | cons x xs ih =>
    intro acc
    simp only [List.foldl_cons, List.map_cons, ih]
    simp

/-- Unfolding one step of the `configure_subinterfaces` loop: a recorded
duplicate contributes no actions, any other entry contributes its trace, and
the `configured_interfaces` set advances by `subifStep` in both cases. -/
theorem configure_subinterfaces_aux_cons (env : Env) (c : List String)
    (s : Subif) (rest : List Subif) :
    configure_subinterfaces_aux env c (s :: rest) =
      (if s.subinterface ∈ c then [] else subifTrace env s) ++
        configure_subinterfaces_aux env (subifStep env c s) rest := by
  by_cases h : s.subinterface ∈ c
  · simp [configure_subinterfaces_aux, subifStep, h]
  · simp [configure_subinterfaces_aux, subifStep, h]

/-- The `configure_subinterfaces` loop splits over list concatenation, the
second half starting from the set accumulated over the first. -/
theorem configure_subinterfaces_aux_append (env : Env) :
    ∀ (l1 l2 : List Subif) (c : List String),
      configure_subinterfaces_aux env c (l1 ++ l2) =
        configure_subinterfaces_aux env c l1 ++
          configure_subinterfaces_aux env (l1.foldl (subifStep env) c) l2 := by
  intro l1
  induction l1 with
  | nil => intro l2 c; simp [configure_subinterfaces_aux]
  | cons s l1 ih =>
    intro l2 c
    rw [List.cons_append, configure_subinterfaces_aux_cons,
      configure_subinterfaces_aux_cons, ih, List.foldl_cons, List.append_assoc]

/-- Membership in the set after one `subifStep`: the step can only add the
processed entry's name, and only when that entry fully succeeded. -/
theorem mem_subifStep (env : Env) (c : List String) (s : Subif)
    (name : String) :
    name ∈ subifStep env c s ↔
      name ∈ c ∨ (s.subinterface = name ∧ subifSuccess env s = true) := by
  unfold subifStep
  by_cases hdup : s.subinterface ∈ c
  · simp only [if_pos hdup]
    constructor
    · exact fun h => Or.inl h
    · rintro (h | ⟨rfl, _⟩)
      · exact h
      · exact hdup
  · simp only [if_neg hdup]
    by_cases hs : subifSuccess env s = true
    · simp only [if_pos hs, List.mem_append, List.mem_singleton]
      constructor
      · rintro (h | h)
        · exact Or.inl h
        · exact Or.inr ⟨h.symm, hs⟩
      · rintro (h | ⟨h, _⟩)
        · exact Or.inl h
        · exact Or.inr h.symm
    · simp only [if_neg hs]
      constructor
      · exact fun h => Or.inl h
      · rintro (h | ⟨_, h⟩)
        · exact h
        · exact absurd h hs

/-- A name is in `configured_interfaces` after a run of the loop exactly when
some processed entry carries that name and fully succeeded (its batch was
sent and committed without error). -/
theorem mem_foldl_subifStep (env : Env) :
    ∀ (l : List Subif) (init : List String) (name : String),
      name ∈ l.foldl (subifStep env) init ↔
        name ∈ init ∨ ∃ s ∈ l, s.subinterface = name ∧ subifSuccess env s = true := by
  intro l
  induction l with
  | nil => intro init name; simp
  | cons s l ih =>
    intro init name
    rw [List.foldl_cons, ih, mem_subifStep]
    constructor
    · rintro ((h | h) | ⟨p, hp, h⟩)
      · exact Or.inl h
      · exact Or.inr ⟨s, List.mem_cons_self s l, h⟩
      · exact Or.inr ⟨p, List.mem_cons_of_mem s hp, h⟩
    · rintro (h | ⟨p, hp, h⟩)
      · exact Or.inl (Or.inl h)
      · rcases List.mem_cons.mp hp with rfl | hp
        · exact Or.inl (Or.inr h)
        · exact Or.inr ⟨p, hp, h⟩

/-- Every action the subinterface loop issues is either a `commit` or the
full per-entity batch of one of the input entries. -/
theorem mem_configure_subinterfaces_aux (env : Env) :
    ∀ (l : List Subif) (c : List String) (a : Action),
      a ∈ configure_subinterfaces_aux env c l →
        a = commitAction ∨ ∃ s ∈ l, a = Action.configSet (subifCommands s) := by
  intro l
  induction l with
  | nil => intro c a h; simp [configure_subinterfaces_aux] at h
  | cons s l ih =>
    intro c a h
    rw [configure_subinterfaces_aux_cons, List.mem_append] at h
    rcases h with h | h
    · by_cases hdup : s.subinterface ∈ c
      · rw [if_pos hdup] at h; simp at h
      · rw [if_neg hdup] at h
        unfold subifTrace at h
        by_cases he : env (Action.configSet (subifCommands s)) = true
        · rw [if_pos he] at h
          rcases List.mem_cons.mp h with h | h
          · exact Or.inr ⟨s, List.mem_cons_self s l, h⟩
          · exact Or.inl (List.mem_singleton.mp h)
        · rw [if_neg he] at h
          exact Or.inr ⟨s, List.mem_cons_self s l, List.mem_singleton.mp h⟩
    · rcases ih _ _ h with h | ⟨p, hp, h⟩
      · exact Or.inl h
      · exact Or.inr ⟨p, List.mem_cons_of_mem s hp, h⟩

/-- When every route carries its required keys, building the static-route
command list succeeds and appends one line per route, in input order. -/
theorem buildRouteCommandsAux_ok :
    ∀ (routes : List StaticRoute) (acc : List String),
      (∀ r ∈ routes, r.network.isSome ∧ r.mask.isSome) →
      buildRouteCommandsAux acc routes = Except.ok (acc ++ routes.map routeLine) := by
  intro routes
  induction routes with
  | nil => intro acc _; simp [buildRouteCommandsAux]
  | cons r rest ih =>
    intro acc h
    obtain ⟨hn, hm⟩ := h r (List.mem_cons_self r rest)
    obtain ⟨n, hn'⟩ := Option.isSome_iff_exists.mp hn
    obtain ⟨m, hm'⟩ := Option.isSome_iff_exists.mp hm
    have := ih (acc ++ [routeLine r])
      (fun x hx => h x (List.mem_cons_of_mem r hx))
    simp only [buildRouteCommandsAux, hn', hm', this, List.map_cons,
      List.append_assoc, List.singleton_append]

/-- A route with a missing required key makes the whole static-route command
construction raise `KeyError`, whatever was accumulated before it. -/
theorem buildRouteCommandsAux_err :
    ∀ (routes : List StaticRoute) (acc : List String),
      (∃ r ∈ routes, r.network = none ∨ r.mask = none) →
      buildRouteCommandsAux acc routes = Except.error () := by
  intro routes
  induction routes with
  | nil => intro acc h; simp at h
  | cons r rest ih =>
    intro acc h
    rcases h with ⟨r', hr', hbad⟩
    rcases List.mem_cons.mp hr' with rfl | hr'
    · rcases hbad with h | h
      · cases hm : r'.mask <;> simp [buildRouteCommandsAux, h, hm]
      · cases hn : r'.network <;> simp [buildRouteCommandsAux, h, hn]
    · cases hn : r.network with
      | none => simp [buildRouteCommandsAux, hn]
      | some n =>
        cases hm : r.mask with
        | none => simp [buildRouteCommandsAux, hn, hm]
        | some m =>
          simp only [buildRouteCommandsAux, hn, hm]
          exact ih _ ⟨r', hr', hbad⟩

/-- A string assembled as `a ++ " " ++ b ++ " " ++ c` contains at least two
space characters, so it can never equal the single-space context line
`router static`; hence no route line collides with the context header. -/
theorem routeLine_ne_router_static (r : StaticRoute) :
    routeLine r ≠ "router static" := by
  intro h
  have hd : (routeLine r).data.count ' ' = ("router static" : String).data.count ' ' := by
    rw [h]
  unfold routeLine at hd
  simp only [String.data_append, List.count_append] at hd
  have h1 : List.count ' ' [' '] = 1 := by decide
  have h2 : List.count ' '
      ['r', 'o', 'u', 't', 'e', 'r', ' ', 's', 't', 'a', 't', 'i', 'c'] = 1 := by
    decide
  rw [h1, h2] at hd
  omega

/-! ### Concrete fixtures used by witnesses and counterexamples -/

/-- A behaviour on which every action succeeds. -/
def envOk : Env := fun _ => true

/-- A sample subinterface entry, matching the shape of
`vlan_config.json['subinterfaces']`. -/
def subifA : Subif :=
  ⟨"GigabitEthernet0/0/0/0", "GigabitEthernet0/0/0/0.10",
   "VLAN 10 subinterface", 10, "10.10.10.1", "255.255.255.0"⟩

/-- A behaviour on which exactly `subifA`'s configuration batch raises. -/
def envFailSubifA : Env :=
  fun a => decide (a ≠ Action.configSet (subifCommands subifA))

/-- Sample VLAN entries for network_ops.py. -/
def vlanA : Vlan := ⟨10, "USERS"⟩

/-- A second sample VLAN entry. -/
def vlanB : Vlan := ⟨20, "SERVERS"⟩

/-- Sample interface entries for network_ops.py. -/
def ifaceA : Iface := ⟨"GigabitEthernet0/1", "uplink to core"⟩

/-- A second, independent sample interface entry. -/
def ifaceB : Iface := ⟨"GigabitEthernet0/2", "access port"⟩

/-- A behaviour on which exactly `ifaceA`'s configuration batch raises. -/
def envFailIfaceA : Env :=
  fun a => decide (a ≠ Action.configSet (ifaceCommands ifaceA))

/-! ### Claims -/

/-- C1: every configuration batch that `configure_subinterfaces` sends for a
subinterface entity is exactly the sequence parent-interface select,
parent admin-up, subinterface creation, description, encapsulation, IPv4
address assignment, subinterface admin-up, in this order; the only other
action the function ever issues is the `commit` that follows a batch, so no
permutation of the batch is ever emitted. -/
theorem subif_batch_order (env : Env) (subifs : List Subif) (a : Action)
    (ha : a ∈ configure_subinterfaces env subifs) :
    a = commitAction ∨ ∃ s ∈ subifs, a = Action.configSet
      ["interface " ++ s.parent_interface,
       "no shutdown",
       "interface " ++ s.subinterface,
       "description " ++ s.description,
       "encapsulation dot1q " ++ toString s.vlan_id,
       "ipv4 address " ++ s.ip_address ++ " " ++ s.subnet_mask,
       "no shutdown"] := by
  rcases mem_configure_subinterfaces_aux env subifs [] a ha with h | ⟨s, hs, h⟩
  · exact Or.inl h
  · exact Or.inr ⟨s, hs, h⟩

/-- Witness for C1 at a concrete run: the one batch sent for `subifA` has
exactly the contracted shape. -/
theorem subif_batch_order_witness :
    Action.configSet (subifCommands subifA) = commitAction ∨
      ∃ s ∈ [subifA], Action.configSet (subifCommands subifA) = Action.configSet
        ["interface " ++ s.parent_interface,
         "no shutdown",
         "interface " ++ s.subinterface,
         "description " ++ s.description,
         "encapsulation dot1q " ++ toString s.vlan_id,
         "ipv4 address " ++ s.ip_address ++ " " ++ s.subnet_mask,
         "no shutdown"] :=
  subif_batch_order envOk [subifA] (Action.configSet (subifCommands subifA))
    (by decide)

/-- C8: in `configure_subinterfaces`, an entry contributes no actions exactly
when some earlier entry with the same `subinterface` name fully succeeded
(batch sent and committed); the `configured_interfaces` set records exactly
the successfully configured names, so an entry whose configuration raised is
not recorded and a later duplicate of it is attempted. -/
theorem subif_duplicates_skipped (env : Env) (pre post : List Subif)
    (s : Subif) :
    configure_subinterfaces env (pre ++ s :: post) =
      configure_subinterfaces env pre ++
        ((if s.subinterface ∈ configuredAfter env pre then []
          else subifTrace env s) ++
          configure_subinterfaces_aux env
            (subifStep env (configuredAfter env pre) s) post) ∧
    (s.subinterface ∈ configuredAfter env pre ↔
      ∃ p ∈ pre, p.subinterface = s.subinterface ∧ subifSuccess env p = true) := by
  constructor
  · unfold configure_subinterfaces configuredAfter
    rw [configure_subinterfaces_aux_append, configure_subinterfaces_aux_cons]
  · unfold configuredAfter
    rw [mem_foldl_subifStep]
    simp

/-- Witness for C8: a duplicate of the successfully configured `subifA` is
skipped, and the recorded-names characterization holds, on a concrete run. -/
theorem subif_duplicates_skipped_witness :
    configure_subinterfaces envOk ([subifA] ++ subifA :: []) =
      configure_subinterfaces envOk [subifA] ++
        ((if subifA.subinterface ∈ configuredAfter envOk [subifA] then []
          else subifTrace envOk subifA) ++
          configure_subinterfaces_aux envOk
            (subifStep envOk (configuredAfter envOk [subifA]) subifA) []) ∧
    (subifA.subinterface ∈ configuredAfter envOk [subifA] ↔
      ∃ p ∈ [subifA], p.subinterface = subifA.subinterface ∧
        subifSuccess envOk p = true) :=
  subif_duplicates_skipped envOk [subifA] [] subifA

/-- C2 (amended): in the IOS XR script, subinterface batches are scoped one
per entity and a failure in any earlier entity's batch never prevents a
later entity's batch from being issued — an entry is only ever suppressed
by an earlier fully successful entry of the same name.  (The network_ops.py
side of the original claim fails, see the counterexample.) -/
theorem xr_failure_containment (env : Env) (pre post : List Subif) (s : Subif)
    (h : ∀ p ∈ pre, p.subinterface = s.subinterface →
      subifSuccess env p = false) :
    Action.configSet (subifCommands s) ∈
      configure_subinterfaces env (pre ++ s :: post) := by
  unfold configure_subinterfaces
  rw [configure_subinterfaces_aux_append, configure_subinterfaces_aux_cons]
  have hnot : s.subinterface ∉ pre.foldl (subifStep env) [] := by
    rw [mem_foldl_subifStep]
    rintro (hmem | ⟨p, hp, hname, hsucc⟩)
    · simp at hmem
    · rw [h p hp hname] at hsucc
      exact Bool.false_ne_true hsucc
  rw [if_neg hnot]
  apply List.mem_append_right
  apply List.mem_append_left
  unfold subifTrace
  by_cases he : env (Action.configSet (subifCommands s)) = true
  · rw [if_pos he]
    exact List.mem_cons_self _ _
  · rw [if_neg he]
    exact List.mem_singleton.mpr rfl

/-- Witness for C2 (amended): on a behaviour where `subifA`'s batch raises,
the batch of a later duplicate entry is still issued. -/
theorem xr_failure_containment_witness :
    Action.configSet (subifCommands subifA) ∈
      configure_subinterfaces envFailSubifA ([subifA] ++ subifA :: []) :=
  xr_failure_containment envFailSubifA [subifA] [] subifA (by decide)

/-- Counterexample to C2 as stated: in network_ops.py, two VLAN creates are
compiled into a single `send_config_set` batch (not one batch per entity),
and once `ifaceA`'s description batch raises, `ifaceB`'s independent batch
is never issued and the failure propagates. -/
theorem per_entity_batching_counterexample :
    (create_vlans envOk [vlanA, vlanB]).1.length = 1 ∧
    update_interface_descriptions envFailIfaceA [ifaceA, ifaceB] =
      ([Action.configSet ["interface GigabitEthernet0/1",
        "description uplink to core"]], false) ∧
    Action.configSet (ifaceCommands ifaceB) ∉
      (update_interface_descriptions envFailIfaceA [ifaceA, ifaceB]).1 := by
  refine ⟨by decide, by decide, by decide⟩

/-- A well-formed sample static route. -/
def routeA : StaticRoute := ⟨some "10.0.0.0", some "255.0.0.0", some "192.168.1.1"⟩

/-- A sample static route whose `next_hop` key is absent. -/
def routeNoNH : StaticRoute := ⟨some "10.20.0.0", some "255.255.0.0", none⟩

/-- A sample static route whose required `network` key is absent. -/
def routeNoNet : StaticRoute := ⟨none, some "255.255.0.0", some "192.168.1.1"⟩

/-- C3: for every non-empty list of well-formed static routes,
`configure_static_routes` issues a single batch whose head enters the
`router static` / `address-family ipv4 unicast` context and which then lists
every route line, in input order; the context-entering line occurs exactly
once in the batch, and the only other action ever issued is the trailing
`commit`, so the router context is never re-entered per route. -/
theorem static_routes_single_context (env : Env) (routes : List StaticRoute)
    (hne : routes ≠ [])
    (hwf : ∀ r ∈ routes, r.network.isSome ∧ r.mask.isSome) :
    ∃ rest, configure_static_routes env routes =
        Action.configSet (["router static", "address-family ipv4 unicast"] ++
          routes.map routeLine) :: rest ∧
      (∀ a ∈ rest, a = commitAction) ∧
      (["router static", "address-family ipv4 unicast"] ++
        routes.map routeLine).count "router static" = 1 := by
  have hb : buildRouteCommands routes = Except.ok
      (["router static", "address-family ipv4 unicast"] ++ routes.map routeLine) :=
    buildRouteCommandsAux_ok routes _ hwf
  have hcount : (["router static", "address-family ipv4 unicast"] ++
      routes.map routeLine).count "router static" = 1 := by
    have h0 : ("router static" : String) ∉ routes.map routeLine := by
      intro hx
      rcases List.mem_map.mp hx with ⟨r, _, hr⟩
      exact routeLine_ne_router_static r hr
    rw [List.count_append, List.count_eq_zero.mpr h0]
    decide
  have hne' : routes.isEmpty = false := by
    cases routes with
    | nil => exact absurd rfl hne
    | cons r rest => rfl
  refine ⟨if env (Action.configSet (["router static",
      "address-family ipv4 unicast"] ++ routes.map routeLine)) = true then
      [commitAction] else [], ?_, ?_, hcount⟩
  · unfold configure_static_routes
    rw [hne', if_neg (by decide : ¬(false = true)), hb]
    show (if env (Action.configSet (["router static",
          "address-family ipv4 unicast"] ++ routes.map routeLine)) = true then
        [Action.configSet (["router static",
          "address-family ipv4 unicast"] ++ routes.map routeLine), commitAction]
      else [Action.configSet (["router static",
          "address-family ipv4 unicast"] ++ routes.map routeLine)]) = _
    by_cases he : env (Action.configSet (["router static",
        "address-family ipv4 unicast"] ++ routes.map routeLine)) = true
    · rw [if_pos he, if_pos he]
    · rw [if_neg he, if_neg he]
  · by_cases he : env (Action.configSet (["router static",
        "address-family ipv4 unicast"] ++ routes.map routeLine)) = true
    · rw [if_pos he]
      intro a ha
      exact List.mem_singleton.mp ha
    · rw [if_neg he]
      intro a ha
      simp at ha

/-- Witness for C3 on a one-route configuration. -/
theorem static_routes_single_context_witness :
    ∃ rest, configure_static_routes envOk [routeA] =
        Action.configSet (["router static", "address-family ipv4 unicast"] ++
          [routeA].map routeLine) :: rest ∧
      (∀ a ∈ rest, a = commitAction) ∧
      (["router static", "address-family ipv4 unicast"] ++
        [routeA].map routeLine).count "router static" = 1 :=
  static_routes_single_context envOk [routeA] (by decide) (by decide)

/-- Counterexample to C5 as stated: a route without a `next_hop` is not
rejected with a validation error — `route.get('next_hop', 'Null0')` silently
substitutes the null-route sentinel and the route is applied. -/
theorem missing_next_hop_counterexample :
    configure_static_routes envOk [routeNoNH] =
      [Action.configSet ["router static", "address-family ipv4 unicast",
        "10.20.0.0 255.255.0.0 Null0"], commitAction] := by
  decide

/-- C5 (amended): a static route missing its optional `next_hop` is silently
defaulted to `Null0` and applied (see the counterexample); a route missing a
required key (`network` or `mask`) raises a `KeyError` that the routine's
single `except` catches, which drops the entire static-route batch —
including every valid route in the same list — while the rest of the run
continues (the function returns normally). -/
theorem static_route_validation (env : Env) (routes : List StaticRoute) :
    ((∃ r ∈ routes, r.network = none ∨ r.mask = none) →
      configure_static_routes env routes = []) ∧
    ((∀ r ∈ routes, r.network.isSome ∧ r.mask.isSome) →
      buildRouteCommands routes = Except.ok
        (["router static", "address-family ipv4 unicast"] ++
          routes.map routeLine)) := by
  constructor
  · intro h
    have herr : buildRouteCommands routes = Except.error () :=
      buildRouteCommandsAux_err routes _ h
    have hne' : routes.isEmpty = false := by
      cases routes with
      | nil => simp at h
      | cons r rest => rfl
    unfold configure_static_routes
    rw [hne', if_neg (by decide : ¬(false = true)), herr]
  · intro h
    exact buildRouteCommandsAux_ok routes _ h

/-- Witness for C5 (amended) on a list holding a route with a missing
required key next to a well-formed one. -/
theorem static_route_validation_witness :
    ((∃ r ∈ [routeNoNet, routeA], r.network = none ∨ r.mask = none) →
      configure_static_routes envOk [routeNoNet, routeA] = []) ∧
    ((∀ r ∈ [routeNoNet, routeA], r.network.isSome ∧ r.mask.isSome) →
      buildRouteCommands [routeNoNet, routeA] = Except.ok
        (["router static", "address-family ipv4 unicast"] ++
          [routeNoNet, routeA].map routeLine)) :=
  static_route_validation envOk [routeNoNet, routeA]

/-- The strict form of a `show` command always appears in the trace of its
strict/lax block, and it appears first. -/
theorem strict_mem_showWithFallback (env : Env) (c : String) :
    Action.command c true ∈ (showWithFallback env c).1 := by
  unfold showWithFallback
  by_cases he : env (Action.command c true) = true
  · rw [if_pos he]
    exact List.mem_singleton.mpr rfl
  · rw [if_neg he]
    exact List.mem_cons_self _ _

/-- A strict/lax block never propagates when the lax form succeeds. -/
theorem showWithFallback_ok (env : Env) (c : String)
    (hlax : env (Action.command c false) = true) :
    (showWithFallback env c).2 = true := by
  unfold showWithFallback
  by_cases he : env (Action.command c true) = true
  · rw [if_pos he]
  · rw [if_neg he]
    exact hlax

/-- The batch of a removal attempt is always issued, whether or not the
device accepts it. -/
theorem configSet_mem_removalAttempt (env : Env) (cmds : List String) :
    Action.configSet cmds ∈ removalAttempt env cmds := by
  unfold removalAttempt
  by_cases he : env (Action.configSet cmds) = true
  · rw [if_pos he]
    exact List.mem_cons_self _ _
  · rw [if_neg he]
    exact List.mem_singleton.mpr rfl

/-- Once `enable` succeeds, the IOS XR run's trace in right-associated
form: cleanup first, then the initial show, the configuration passes, the
verification, and the save step last. -/
theorem iosxr_run_trace (env : Env) (cfg : XrCfg)
    (h : env Action.enable = true) :
    (iosxr_run env cfg).1 = Action.enable ::
      (cleanup_existing_configs env ++ (initial_show ++
        (configure_subinterfaces env cfg.subinterfaces ++
          ((match cfg.routing_protocols with
            | some rcs => configure_routing_protocols env rcs
            | none => []) ++
            (verify_iosxr_configuration env ++ save_iosxr_config env))))) := by
  unfold iosxr_run
  rw [h]
  simp [List.append_assoc]

/-- A sample OSPF advertisement. -/
def ospfNetA : OspfNetwork := ⟨"10.10.10.0", "0.0.0.255", "0"⟩

/-- A sample `routing_protocols` entry with an upper-case protocol value. -/
def rcOspf : RoutingConfig := ⟨"OSPF", 1, [ospfNetA]⟩

/-- A sample `routing_protocols` entry with a non-OSPF protocol. -/
def rcBgp : RoutingConfig := ⟨"bgp", 65000, []⟩

/-- A sample iosxr desired state. -/
def xrCfgA : XrCfg := ⟨[subifA], some [rcOspf]⟩

/-- A sample network_ops desired state. -/
def netCfgA : NetCfg := ⟨some [vlanA], some [ifaceA]⟩

/-- A behaviour on which exactly `write memory` raises. -/
def envFailWriteMem : Env :=
  fun a => decide (a ≠ Action.command "write memory" false)

/-- A behaviour on which exactly the strict OSPF status command raises. -/
def envFailOspfShow : Env :=
  fun a => decide (a ≠ Action.command "show ospf interface brief" true)

/-- The environment with no variables set. -/
def emptyEnvVars : EnvVars := fun _ => none

/-- C4 (amended): in the IOS XR script every phase after `enable` catches
its own exceptions — in particular `save_iosxr_config` catches every
persistence failure and only prints a note — so once `enable` succeeds the
run reaches the save step and terminates successfully whatever the device
answers: a persistence error can never flip the terminal outcome.  (In
network_ops.py the original claim fails, see the counterexample.) -/
theorem xr_save_warning_only (env : Env) (cfg : XrCfg)
    (h : env Action.enable = true) :
    (iosxr_run env cfg).2 = true ∧
    ∃ t, (iosxr_run env cfg).1 = t ++ save_iosxr_config env := by
  constructor
  · unfold iosxr_run
    rw [h]
    rfl
  · refine ⟨Action.enable ::
      (cleanup_existing_configs env ++ (initial_show ++
        (configure_subinterfaces env cfg.subinterfaces ++
          ((match cfg.routing_protocols with
            | some rcs => configure_routing_protocols env rcs
            | none => []) ++
            verify_iosxr_configuration env)))), ?_⟩
    rw [iosxr_run_trace env cfg h]
    simp [List.append_assoc]

/-- Witness for C4 (amended): a concrete run on which everything succeeds
ends successfully and reaches the save step. -/
theorem xr_save_warning_only_witness :
    (iosxr_run envOk xrCfgA).2 = true ∧
    ∃ t, (iosxr_run envOk xrCfgA).1 = t ++ save_iosxr_config envOk :=
  xr_save_warning_only envOk xrCfgA rfl

/-- Counterexample to C4 as stated: in network_ops.py, `save_config` sends
`write memory` with no exception handling; on a behaviour where only that
persistence command raises, the run reaches the save step and terminates as
failed (main's `except` branch, `sys.exit(1)`). -/
theorem save_failure_aborts_counterexample :
    Action.command "write memory" false ∈
      (network_ops_run envFailWriteMem netCfgA).1 ∧
    (network_ops_run envFailWriteMem netCfgA).2 = false := by
  refine ⟨by decide, by decide⟩

/-- C9: once `enable` succeeds, the IOS XR run's trace starts with the
cleanup trace — which is computed without looking at the loaded desired
state — followed by everything else; the cleanup trace always issues the
removal of OSPF process 1 and a `no interface` batch for each of the eight
hardcoded subinterface names, whatever the desired state `cfg` holds. -/
theorem cleanup_runs_first (env : Env) (cfg : XrCfg)
    (h : env Action.enable = true) :
    Action.configSet ["no router ospf 1"] ∈ cleanup_existing_configs env ∧
    (∀ n ∈ subinterfaces_to_remove,
      Action.configSet ["no interface " ++ n] ∈ cleanup_existing_configs env) ∧
    ∃ rest, (iosxr_run env cfg).1 =
      Action.enable :: (cleanup_existing_configs env ++ rest) := by
  refine ⟨?_, ?_, ?_⟩
  · unfold cleanup_existing_configs
    exact List.mem_append_left _ (configSet_mem_removalAttempt env _)
  · intro n hn
    unfold cleanup_existing_configs
    apply List.mem_append_right
    rw [List.mem_flatten]
    exact ⟨removalAttempt env ["no interface " ++ n],
      List.mem_map.mpr ⟨n, hn, rfl⟩, configSet_mem_removalAttempt env _⟩
  · exact ⟨initial_show ++
      (configure_subinterfaces env cfg.subinterfaces ++
        ((match cfg.routing_protocols with
          | some rcs => configure_routing_protocols env rcs
          | none => []) ++
          (verify_iosxr_configuration env ++ save_iosxr_config env))),
      iosxr_run_trace env cfg h⟩

/-- Witness for C9 on a concrete successful run with a non-empty desired
state that never mentions the removed entities. -/
theorem cleanup_runs_first_witness :
    Action.configSet ["no router ospf 1"] ∈ cleanup_existing_configs envOk ∧
    (∀ n ∈ subinterfaces_to_remove,
      Action.configSet ["no interface " ++ n] ∈ cleanup_existing_configs envOk) ∧
    ∃ rest, (iosxr_run envOk xrCfgA).1 =
      Action.enable :: (cleanup_existing_configs envOk ++ rest) :=
  cleanup_runs_first envOk xrCfgA rfl

/-- C6 (amended): no credential-presence check exists; each absent variable
falls back to a hardcoded default (host `sandbox-iosxr-1.cisco.com`,
username `admin`, password and secret `C1sco12345`, port 22) and the
connection attempt proceeds — absence of a credential never aborts the
program before the session is opened.  (The original claim fails, see the
counterexample.) -/
theorem credentials_default_fallback (e : EnvVars)
    (h : e "SWITCH_PORT" = none) :
    iosxr_device_info e = some
      ⟨(e "SWITCH_IP").getD "sandbox-iosxr-1.cisco.com",
       (e "SWITCH_USERNAME").getD "admin",
       (e "SWITCH_PASSWORD").getD "C1sco12345",
       (e "SWITCH_ENABLE_PASSWORD").getD "C1sco12345", 22⟩ := by
  unfold iosxr_device_info iosxr_port
  rw [h]

/-- Witness for C6 (amended) on the empty environment. -/
theorem credentials_default_fallback_witness :
    iosxr_device_info emptyEnvVars = some
      ⟨(emptyEnvVars "SWITCH_IP").getD "sandbox-iosxr-1.cisco.com",
       (emptyEnvVars "SWITCH_USERNAME").getD "admin",
       (emptyEnvVars "SWITCH_PASSWORD").getD "C1sco12345",
       (emptyEnvVars "SWITCH_ENABLE_PASSWORD").getD "C1sco12345", 22⟩ :=
  credentials_default_fallback emptyEnvVars rfl

/-- Counterexample to C6 as stated: with every credential variable absent
from the environment, the connection parameters are silently assembled from
baked-in defaults and the session open is attempted — there is no fatal
precondition failure. -/
theorem credentials_absent_counterexample :
    iosxr_device_info emptyEnvVars = some
      ⟨"sandbox-iosxr-1.cisco.com", "admin", "C1sco12345", "C1sco12345", 22⟩ ∧
    (iosxr_device_info emptyEnvVars).isSome = true := by
  refine ⟨rfl, rfl⟩

/-- C7 (amended): the strict/lax blocks of the verification routine try the
strict form first and, exactly when it failed, the lax form as a fallback;
as long as lax forms succeed a strict failure never cuts the routine short
(the final read step is still reached).  The OSPF status command is the
exception to the original claim: it is tried strict-only, with no lax
fallback (see the counterexample). -/
theorem show_fallback_policy (env : Env) (c : String) :
    (showWithFallback env c).1.head? = some (Action.command c true) ∧
    (env (Action.command c true) = false →
      (showWithFallback env c).1 =
        [Action.command c true, Action.command c false]) ∧
    ((∀ c', env (Action.command c' false) = true) →
      Action.command "show route ipv4" true ∈ verify_iosxr_configuration env) := by
  refine ⟨?_, ?_, ?_⟩
  · unfold showWithFallback
    by_cases he : env (Action.command c true) = true
    · rw [if_pos he]
      rfl
    · rw [if_neg he]
      rfl
  · intro hf
    unfold showWithFallback
    rw [if_neg (by rw [hf]; exact Bool.false_ne_true)]
  · intro hlax
    have h1 := showWithFallback_ok env "show interfaces brief" (hlax _)
    have h2 := showWithFallback_ok env "show running-config interface" (hlax _)
    have h3 := showWithFallback_ok env "show ipv4 interface brief" (hlax _)
    have h5 := strict_mem_showWithFallback env "show route ipv4"
    simp [verify_iosxr_configuration, h1, h2, h3, h5]

/-- Witness for C7 (amended) at a concrete behaviour and command. -/
theorem show_fallback_policy_witness :
    (showWithFallback envFailOspfShow "show interfaces brief").1.head? =
      some (Action.command "show interfaces brief" true) ∧
    (envFailOspfShow (Action.command "show interfaces brief" true) = false →
      (showWithFallback envFailOspfShow "show interfaces brief").1 =
        [Action.command "show interfaces brief" true,
         Action.command "show interfaces brief" false]) ∧
    ((∀ c', envFailOspfShow (Action.command c' false) = true) →
      Action.command "show route ipv4" true ∈
        verify_iosxr_configuration envFailOspfShow) :=
  show_fallback_policy envFailOspfShow "show interfaces brief"

/-- Counterexample to C7 as stated: when the strict form of the OSPF status
command raises, no lax form of it is ever attempted — the routine just
prints a message — so not every verification `show` command has the
strict-then-lax fallback. -/
theorem ospf_show_no_fallback_counterexample :
    Action.command "show ospf interface brief" true ∈
      verify_iosxr_configuration envFailOspfShow ∧
    Action.command "show ospf interface brief" false ∉
      verify_iosxr_configuration envFailOspfShow := by
  refine ⟨by decide, by decide⟩

/-- C10: the routing-protocol pass is the concatenation, in input order, of
per-entry traces; an entry's trace is empty exactly when its protocol value
is not `ospf` after lowercasing (nothing is sent and nothing raised for such
entries), and for an OSPF entry the batch is the `router ospf <pid>` header
followed by one network statement per entry of `networks`, in input order,
with only a `commit` after it. -/
theorem ospf_protocol_filter (env : Env) (rcs : List RoutingConfig)
    (rc : RoutingConfig) :
    configure_routing_protocols env rcs = (rcs.map (routingTrace env)).flatten ∧
    (routingTrace env rc = [] ↔ pyLower rc.protocol ≠ "ospf") ∧
    (pyLower rc.protocol = "ospf" →
      ∃ rest, routingTrace env rc = Action.configSet
          (("router ospf " ++ toString rc.process_id) ::
            rc.networks.map ospfNetLine) :: rest ∧
        ∀ a ∈ rest, a = commitAction) := by
  have hcmds : ospfCommands rc =
      ("router ospf " ++ toString rc.process_id) :: rc.networks.map ospfNetLine := by
    unfold ospfCommands
    rw [foldl_append_singletons]
    rfl
  refine ⟨?_, ?_, ?_⟩
  · unfold configure_routing_protocols
    simpa using foldl_append_blocks (routingTrace env) rcs []
  · unfold routingTrace
    by_cases hp : pyLower rc.protocol = "ospf"
    · rw [if_pos (by rw [hp]; rfl)]
      constructor
      · intro h
        by_cases he : env (Action.configSet (ospfCommands rc)) = true
        · rw [if_pos he] at h
          exact absurd h (by simp)
        · rw [if_neg he] at h
          exact absurd h (by simp)
      · intro h
        exact absurd hp h
    · rw [if_neg (by simpa using hp)]
      exact ⟨fun _ => hp, fun _ => rfl⟩
  · intro hp
    unfold routingTrace
    rw [if_pos (by rw [hp]; rfl), hcmds]
    by_cases he : env (Action.configSet
        (("router ospf " ++ toString rc.process_id) ::
          rc.networks.map ospfNetLine)) = true
    · rw [if_pos he]
      exact ⟨[commitAction], rfl, fun a ha => List.mem_singleton.mp ha⟩
    · rw [if_neg he]
      exact ⟨[], rfl, fun a ha => absurd ha (by simp)⟩

/-- Witness for C10 on a two-entry list holding an upper-case OSPF entry and
a BGP entry. -/
theorem ospf_protocol_filter_witness :
    configure_routing_protocols envOk [rcOspf, rcBgp] =
      ([rcOspf, rcBgp].map (routingTrace envOk)).flatten ∧
    (routingTrace envOk rcOspf = [] ↔ pyLower rcOspf.protocol ≠ "ospf") ∧
    (pyLower rcOspf.protocol = "ospf" →
      ∃ rest, routingTrace envOk rcOspf = Action.configSet
          (("router ospf " ++ toString rcOspf.process_id) ::
            rcOspf.networks.map ospfNetLine) :: rest ∧
        ∀ a ∈ rest, a = commitAction) :=
  ospf_protocol_filter envOk [rcOspf, rcBgp] rcOspf

end Cisco
